import Mathlib

/-!
Verification of the reference-counted handle wrapper of `cairo/src/context.rs`
(and the generated accessor forwarders of `gio/src/auto/menu_item.rs`,
`src/auto/permission.rs`, `src/auto/font_face.rs`).

Modelling conventions:
* A raw C pointer is a `Nat`; `0` is the null pointer.
* The native library (an external collaborator the wrapper calls into) is
  modelled by a `CairoState` carrying, per pointer, the reference count kept by
  the native object and its native status code; native entry points whose
  behaviour the wrapper does not reimplement appear as function parameters.
* Reference-count traffic is made observable as a trace of native calls
  (`NCall`); `applyTrace` gives the trace its effect on the native state.
* A Rust `panic!`/failed `assert!`/`expect` is modelled as `Option.none`.
* `f64` values are carried opaquely as bit patterns (`F64`); no floating-point
  arithmetic is performed anywhere in the wrapper code under verification.
-/

/-- A raw C pointer; `0` is the null pointer. -/
abbrev Ptr := Nat

/-- An opaque `f64` bit pattern (the wrapper only forwards these). -/
abbrev F64 := Nat

/-- The native calls the wrapper can make that touch object lifetimes:
`cairo_reference`, `cairo_destroy` and `cairo_rectangle_list_destroy`. -/
inductive NCall where
  | reference (p : Ptr)
  | destroy (p : Ptr)
  | rectangleListDestroy (p : Ptr)
deriving DecidableEq, Repr

/-- The observable state of the native cairo library: per pointer, the
reference count of the object it designates and the object's status code. -/
structure CairoState where
  refcount : Ptr → Int
  status : Ptr → Int

/-- `cairo_status`: query the native status code of an object. -/
def cairo_status (p : Ptr) (s : CairoState) : Int :=
  s.status p

/-- Effect of one native lifetime call on the native state:
`cairo_reference` increments the designated object's reference count,
`cairo_destroy` decrements it, and destroying a rectangle list frees memory
that carries no reference count. -/
def NCall.applyTo (s : CairoState) : NCall → CairoState
  | NCall.reference p =>
      { s with refcount := fun q => if q = p then s.refcount q + 1 else s.refcount q }
  | NCall.destroy p =>
      { s with refcount := fun q => if q = p then s.refcount q - 1 else s.refcount q }
  | NCall.rectangleListDestroy _ => s

/-- Effect of a whole trace of native lifetime calls, first call first. -/
def applyTrace (t : List NCall) (s : CairoState) : CairoState :=
  t.foldl NCall.applyTo s

/-- Number of `cairo_reference p` calls (native increments of `p`) in a trace. -/
def countIncrements (t : List NCall) (p : Ptr) : Nat :=
  t.countP (fun c => decide (c = NCall.reference p))

/-- Number of `cairo_destroy p` calls (native decrements of `p`) in a trace. -/
def countDecrements (t : List NCall) (p : Ptr) : Nat :=
  t.countP (fun c => decide (c = NCall.destroy p))

/-- `pub struct Context(ptr::NonNull<cairo_t>);` — a wrapped context handle is
a pointer together with the `NonNull` invariant. -/
structure Context where
  ptr : Ptr
  nonnull : ptr ≠ 0

/-- Modelled from the spec: `crate::Borrowed` (defined outside the provided
sources) wraps a handle while suppressing its destructor path — the borrow
mode "must not decrement or increment the count, enforced by not exposing a
destructor path". -/
structure Borrowed where
  inner : Context

/-- Ending a borrow runs no destructor, hence makes no native call. -/
def Borrowed.dropTrace (_ : Borrowed) : List NCall := []

/-- `Context::from_raw_none`: assert the pointer is non-null (panic = `none`),
call `cairo_reference`, wrap. -/
def Context.from_raw_none (p : Ptr) : Option (Context × List NCall) :=
  if h : p = 0 then none
  else some (⟨p, h⟩, [NCall.reference p])

/-- `Context::from_raw_borrow`: assert the pointer is non-null (panic =
`none`), wrap in `Borrowed` with no native call. -/
def Context.from_raw_borrow (p : Ptr) : Option (Borrowed × List NCall) :=
  if h : p = 0 then none
  else some (⟨⟨p, h⟩⟩, [])

/-- `Context::from_raw_full`: assert the pointer is non-null (panic = `none`),
wrap with no native call. -/
def Context.from_raw_full (p : Ptr) : Option (Context × List NCall) :=
  if h : p = 0 then none
  else some (⟨p, h⟩, [])

/-- `Context::to_raw_none`: expose the wrapped pointer. -/
def Context.to_raw_none (c : Context) : Ptr :=
  c.ptr

/-- `impl Drop for Context`: one `cairo_destroy` call on the wrapped pointer. -/
def Context.dropTrace (c : Context) : List NCall :=
  [NCall.destroy c.ptr]

/-- `impl Clone for Context`: `Self::from_raw_none(self.to_raw_none())`; the
wrapped pointer is non-null, so the inner assertion cannot fire. -/
def Context.clone (c : Context) : Context × List NCall :=
  Option.get (Context.from_raw_none (Context.to_raw_none c))
    (by simp [Context.from_raw_none, Context.to_raw_none, c.nonnull])

/-- `n` successive clones of a handle, with the concatenated native trace. -/
def Context.cloneMany (c : Context) : Nat → List Context × List NCall
  | 0 => ([], [])
  | Nat.succ n =>
      let r := Context.clone c
      let rest := Context.cloneMany c n
      (r.1 :: rest.1, r.2 ++ rest.2)

/-- Dropping a list of handles: each runs its own destructor. -/
def dropAll : List Context → List NCall
  | [] => []
  | c :: cs => Context.dropTrace c ++ dropAll cs

-- Basic lemmas about traces.

theorem applyTrace_append (t u : List NCall) (s : CairoState) :
    applyTrace (t ++ u) s = applyTrace u (applyTrace t s) := by
  simp [applyTrace, List.foldl_append]

theorem applyTo_status (s : CairoState) (c : NCall) :
    (NCall.applyTo s c).status = s.status := by
  cases c <;> rfl

theorem applyTrace_status (t : List NCall) (s : CairoState) :
    (applyTrace t s).status = s.status := by
  induction t generalizing s with
  | nil => rfl
  | cons c t ih =>
      simp only [applyTrace, List.foldl_cons] at *
      rw [ih, applyTo_status]

theorem applyTrace_refcount (t : List NCall) (s : CairoState) (q : Ptr) :
    (applyTrace t s).refcount q =
      s.refcount q + (countIncrements t q : Int) - (countDecrements t q : Int) := by
  induction t generalizing s with
  | nil => simp [applyTrace, countIncrements, countDecrements]
  | cons c t ih =>
      simp only [applyTrace, List.foldl_cons] at *
      rw [ih]
      cases c with
      | reference p =>
          by_cases hq : q = p

          · subst hq
            simp [NCall.applyTo, countIncrements, countDecrements, List.countP_cons]
            ring
          · simp [NCall.applyTo, countIncrements, countDecrements, List.countP_cons, hq,
              Ne.symm hq]
      | destroy p =>
          by_cases hq : q = p
          · subst hq
            simp [NCall.applyTo, countIncrements, countDecrements, List.countP_cons]
            ring
          · simp [NCall.applyTo, countIncrements, countDecrements, List.countP_cons, hq,
              Ne.symm hq]
      | rectangleListDestroy p =>
          simp [NCall.applyTo, countIncrements, countDecrements, List.countP_cons]

-- Status codes and error translation.

/-- The native success status code (`CAIRO_STATUS_SUCCESS`). -/
def STATUS_SUCCESS : Int := 0

/-- Modelled from the spec: the typed error of `error.rs` (outside the provided
sources) carries the translated native status code. -/
structure Error where
  code : Int
deriving DecidableEq, Repr

/-- Modelled from the spec: `utils::status_to_result` (outside the provided
sources) — "the wrapper queries the native status code and translates a
non-success code into a typed error; success is silent". -/
def status_to_result (s : Int) : Except Error Unit :=
  if s = STATUS_SUCCESS then Except.ok () else Except.error ⟨s⟩

/-- `Context::status`: query `cairo_status` on the wrapped pointer and
translate. -/
def Context.statusResult (c : Context) (st : CairoState) : Except Error Unit :=
  status_to_result (cairo_status c.ptr st)

/-- `Context::new`: wrap the pointer returned by `cairo_create(target)` via
`from_raw_full` (panic = `none` if the native call returned null), then return
the context iff its post-call status check succeeds. -/
def Context.new (cairo_create : Ptr → CairoState → Ptr × CairoState)
    (target : Ptr) (st : CairoState) :
    Option ((Except Error Context) × CairoState) :=
  let r := cairo_create target st
  match Context.from_raw_full r.1 with
  | none => none
  | some ctx => some (Except.map (fun _ => ctx.1) (Context.statusResult ctx.1 r.2), r.2)

/-- `Context::save`: call `cairo_save`, then return `self.status()`. -/
def Context.save (cairo_save : Ptr → CairoState → CairoState)
    (c : Context) (st : CairoState) : (Except Error Unit) × CairoState :=
  let st1 := cairo_save c.ptr st
  (Context.statusResult c st1, st1)

/-- `Context::restore`: call `cairo_restore`, then return `self.status()`. -/
def Context.restore (cairo_restore : Ptr → CairoState → CairoState)
    (c : Context) (st : CairoState) : (Except Error Unit) × CairoState :=
  let st1 := cairo_restore c.ptr st
  (Context.statusResult c st1, st1)

/-- `Context::fill`: call `cairo_fill`, then return `self.status()`. -/
def Context.fill (cairo_fill : Ptr → CairoState → CairoState)
    (c : Context) (st : CairoState) : (Except Error Unit) × CairoState :=
  let st1 := cairo_fill c.ptr st
  (Context.statusResult c st1, st1)

/-- `Context::in_clip`: call `cairo_in_clip` (a `cairo_bool_t`, converted by
`as_bool` to `≠ 0`), then return the boolean iff `self.status()` succeeds. -/
def Context.in_clip (cairo_in_clip : Ptr → F64 → F64 → CairoState → Int × CairoState)
    (c : Context) (x y : F64) (st : CairoState) : (Except Error Bool) × CairoState :=
  let r := cairo_in_clip c.ptr x y st
  let in_clip := r.1 != 0
  (Except.map (fun _ => in_clip) (Context.statusResult c r.2), r.2)

/-- `Context::set_antialias`: call `cairo_set_antialias`, then
`self.status().expect(..)` — a non-success status panics (`none`); no typed
error is ever returned to the caller. -/
def Context.set_antialias (cairo_set_antialias : Ptr → Int → CairoState → CairoState)
    (c : Context) (antialias : Int) (st : CairoState) : Option CairoState :=
  let st1 := cairo_set_antialias c.ptr antialias st
  match Context.statusResult c st1 with
  | Except.ok _ => some st1
  | Except.error _ => none

/-- `Context::set_operator`: call `cairo_set_operator` and return; no status
query, no error path of any kind. -/
def Context.set_operator (cairo_set_operator : Ptr → Int → CairoState → CairoState)
    (c : Context) (op : Int) (st : CairoState) : CairoState :=
  cairo_set_operator c.ptr op st

/-- `Context::move_to`: call `cairo_move_to` and return; no status query, no
error path of any kind. -/
def Context.move_to (cairo_move_to : Ptr → F64 → F64 → CairoState → CairoState)
    (c : Context) (x y : F64) (st : CairoState) : CairoState :=
  cairo_move_to c.ptr x y st

-- Rectangle lists.

/-- `crate::Rectangle`: four `f64` fields, carried as opaque bit patterns. -/
structure Rectangle where
  x : F64
  y : F64
  width : F64
  height : F64
deriving DecidableEq, Repr

/-- The native `cairo_rectangle_list_t`: a status code, a pointer to the
rectangle array, and a `c_int` count. -/
structure cairo_rectangle_list_t where
  status : Int
  rectangles : Ptr
  num_rectangles : Int

/-- `pub struct RectangleList { ptr: *mut cairo_rectangle_list_t }`. -/
structure RectangleList where
  ptr : Ptr

/-- The Rust `as usize` cast on a `c_int` (two's-complement into a 64-bit
unsigned size). -/
def usize_of_c_int (n : Int) : Nat :=
  (n % (2 : Int) ^ 64).toNat

/-- `slice::from_raw_parts`: the `len` rectangles stored from `p` on, read
from the rectangle memory `mem`. -/
def slice_from_raw_parts (mem : Ptr → Rectangle) (p : Ptr) (len : Nat) : List Rectangle :=
  (List.range len).map fun i => mem (p + i)

/-- `impl Deref for RectangleList`: read the native list through the wrapped
pointer (via the list memory `listMem`); a null rectangle pointer or a zero
count dereferences to the empty slice, anything else to
`slice::from_raw_parts(ptr, len as usize)`. -/
def RectangleList.deref (listMem : Ptr → cairo_rectangle_list_t)
    (mem : Ptr → Rectangle) (self : RectangleList) : List Rectangle :=
  let l := listMem self.ptr
  if l.rectangles = 0 ∨ l.num_rectangles = 0 then []
  else slice_from_raw_parts mem l.rectangles (usize_of_c_int l.num_rectangles)

/-- `impl Drop for RectangleList`: one `cairo_rectangle_list_destroy` call. -/
def RectangleList.dropTrace (self : RectangleList) : List NCall :=
  [NCall.rectangleListDestroy self.ptr]

/-- `Context::copy_clip_rectangle_list`: call the native function, check the
status embedded in the returned list (`?` early-returns the translated error
before any wrapper is constructed), else wrap the pointer. The trace component
records the native lifetime calls made by this function itself. -/
def Context.copy_clip_rectangle_list
    (cairo_copy_clip_rectangle_list : Ptr → CairoState → Ptr × CairoState)
    (listMem : Ptr → cairo_rectangle_list_t)
    (c : Context) (st : CairoState) :
    (Except Error RectangleList) × CairoState × List NCall :=
  let r := cairo_copy_clip_rectangle_list c.ptr st
  match status_to_result (listMem r.1).status with
  | Except.error e => (Except.error e, r.2, [])
  | Except.ok _ => (Except.ok ⟨r.1⟩, r.2, [])

-- Generated accessor forwarders (gio / gtk / pango).

/-- The native entry points called by the three generated accessors under
scrutiny, with their marshalled arguments. -/
inductive GCall where
  | g_menu_item_set_label (obj : Ptr) (label : Option String)
  | g_permission_get_allowed (obj : Ptr)
  | pango_font_face_get_face_name (obj : Ptr)
deriving DecidableEq, Repr

/-- A wrapped `MenuItem` object. -/
structure MenuItem where
  ptr : Ptr

/-- A wrapped `Permission` object. -/
structure Permission where
  ptr : Ptr

/-- A wrapped pango `FontFace` object. -/
structure FontFace where
  ptr : Ptr

/-- `MenuItem::set_label`: one `g_menu_item_set_label` call with the
marshalled label (`None` marshals to null), returning unit. -/
def MenuItem.set_label (self : MenuItem) (label : Option String) :
    Unit × List GCall :=
  ((), [GCall.g_menu_item_set_label self.ptr label])

/-- `from_glib` on a `gboolean`: nonzero is `true`. -/
def from_glib_bool (b : Int) : Bool :=
  b != 0

/-- `PermissionExt::get_allowed`: one `g_permission_get_allowed` call, its
`gboolean` result translated by `from_glib`. -/
def Permission.get_allowed (g_permission_get_allowed : Ptr → Int)
    (self : Permission) : Bool × List GCall :=
  (from_glib_bool (g_permission_get_allowed self.ptr),
    [GCall.g_permission_get_allowed self.ptr])

/-- `from_glib_none` on a returned C string: null becomes `None`, otherwise
the string is copied out of the string memory `strMem`. -/
def from_glib_none_str (strMem : Ptr → String) (p : Ptr) : Option String :=
  if p = 0 then none else some (strMem p)

/-- `FontFaceExt::get_face_name`: one `pango_font_face_get_face_name` call,
its C-string result translated by `from_glib_none`. -/
def FontFace.get_face_name (pango_font_face_get_face_name : Ptr → Ptr)
    (strMem : Ptr → String) (self : FontFace) : Option String × List GCall :=
  (from_glib_none_str strMem (pango_font_face_get_face_name self.ptr),
    [GCall.pango_font_face_get_face_name self.ptr])

-- Helper lemmas and concrete objects.

theorem Context.clone_eq (c : Context) :
    Context.clone c = (⟨c.ptr, c.nonnull⟩, [NCall.reference c.ptr]) := by
  simp [Context.clone, Context.from_raw_none, Context.to_raw_none, c.nonnull]

theorem Context.cloneMany_snd (c : Context) (n : Nat) :
    (Context.cloneMany c n).2 = List.replicate n (NCall.reference c.ptr) := by
  induction n with
  | zero => rfl
  | succ n ih =>
      simp [Context.cloneMany, Context.clone_eq, ih, List.replicate_succ]

theorem dropAll_cloneMany (c : Context) (n : Nat) :
    dropAll (Context.cloneMany c n).1 = List.replicate n (NCall.destroy c.ptr) := by
  induction n with
  | zero => rfl
  | succ n ih =>
      simp [Context.cloneMany, Context.clone_eq, dropAll, Context.dropTrace, ih,
        List.replicate_succ]

theorem countIncrements_append (t u : List NCall) (p : Ptr) :
    countIncrements (t ++ u) p = countIncrements t p + countIncrements u p := by
  simp [countIncrements, List.countP_append]

theorem countDecrements_append (t u : List NCall) (p : Ptr) :
    countDecrements (t ++ u) p = countDecrements t p + countDecrements u p := by
  simp [countDecrements, List.countP_append]

theorem countIncrements_replicate_ref (n : Nat) (p q : Ptr) :
    countIncrements (List.replicate n (NCall.reference p)) q = if q = p then n else 0 := by
  induction n with
  | zero => simp [countIncrements]
  | succ n ih =>
      by_cases h : q = p
      · simp_all [countIncrements, List.replicate_succ, List.countP_cons]
      · simp_all [countIncrements, List.replicate_succ, List.countP_cons, Ne.symm h]

theorem countDecrements_replicate_ref (n : Nat) (p q : Ptr) :
    countDecrements (List.replicate n (NCall.reference p)) q = 0 := by
  induction n with
  | zero => simp [countDecrements]
  | succ n ih => simp_all [countDecrements, List.replicate_succ, List.countP_cons]

theorem countDecrements_replicate_destroy (n : Nat) (p q : Ptr) :
    countDecrements (List.replicate n (NCall.destroy p)) q = if q = p then n else 0 := by
  induction n with
  | zero => simp [countDecrements]
  | succ n ih =>
      by_cases h : q = p
      · simp_all [countDecrements, List.replicate_succ, List.countP_cons]
      · simp_all [countDecrements, List.replicate_succ, List.countP_cons, Ne.symm h]

theorem countIncrements_replicate_destroy (n : Nat) (p q : Ptr) :
    countIncrements (List.replicate n (NCall.destroy p)) q = 0 := by
  induction n with
  | zero => simp [countIncrements]
  | succ n ih => simp_all [countIncrements, List.replicate_succ, List.countP_cons]

theorem countIncrements_singleton_ref (p q : Ptr) :
    countIncrements [NCall.reference p] q = if q = p then 1 else 0 := by
  by_cases h : q = p
  · simp [countIncrements, h]
  · simp [countIncrements, h, Ne.symm h]

theorem countIncrements_singleton_destroy (p q : Ptr) :
    countIncrements [NCall.destroy p] q = 0 := by
  simp [countIncrements]

theorem countDecrements_singleton_ref (p q : Ptr) :
    countDecrements [NCall.reference p] q = 0 := by
  simp [countDecrements]

theorem countDecrements_singleton_destroy (p q : Ptr) :
    countDecrements [NCall.destroy p] q = if q = p then 1 else 0 := by
  by_cases h : q = p
  · simp [countDecrements, h]
  · simp [countDecrements, h, Ne.symm h]

/-- A concrete non-null handle, used to instantiate theorems. -/
def ctxOne : Context := ⟨1, by decide⟩

/-- A concrete native state: every object has reference count 2 and a clean
status. -/
def stEx : CairoState := ⟨fun _ => 2, fun _ => 0⟩

/-- A concrete native state in which every object carries the (non-success)
status code 11. -/
def stBad : CairoState := ⟨fun _ => 1, fun _ => 11⟩

/-- The whole native trace of one handle's lifetime: acquisition trace `t0`,
then `n` clones, then the drop of every handle. -/
def lifecycleTrace (c : Context) (t0 : List NCall) (n : Nat) : List NCall :=
  t0 ++ (Context.cloneMany c n).2 ++ dropAll (c :: (Context.cloneMany c n).1)

/-- Claim C2: each of `from_raw_none`, `from_raw_borrow` and `from_raw_full`
asserts at construction that the raw pointer is non-null and panics when it is
null; every successfully wrapped `Context` therefore holds a non-null native
pointer for its entire lifetime. -/
theorem constructors_null_check (p : Ptr) :
    (p = 0 →
      Context.from_raw_none p = none ∧
      Context.from_raw_borrow p = none ∧
      Context.from_raw_full p = none) ∧
    (∀ h : p ≠ 0,
      Context.from_raw_none p = some (⟨p, h⟩, [NCall.reference p]) ∧
      Context.from_raw_borrow p = some (⟨⟨p, h⟩⟩, []) ∧
      Context.from_raw_full p = some (⟨p, h⟩, [])) ∧
    (∀ c : Context, Context.to_raw_none c ≠ 0) := by
  refine ⟨fun h0 => ?_, fun h => ?_, fun c => c.nonnull⟩
  · simp [Context.from_raw_none, Context.from_raw_borrow, Context.from_raw_full, h0]
  · simp [Context.from_raw_none, Context.from_raw_borrow, Context.from_raw_full, h]

/-- Witness for C2 at the concrete pointers `0` and `1`. -/
theorem constructors_null_check_witness :
    Context.from_raw_none 0 = none ∧
    Context.from_raw_full 1 = some (⟨1, by decide⟩, []) ∧
    Context.to_raw_none ⟨1, by decide⟩ ≠ 0 :=
  ⟨((constructors_null_check 0).1 rfl).1,
   ((constructors_null_check 1).2.1 (by decide)).2.2,
   (constructors_null_check 1).2.2 ⟨1, by decide⟩⟩

/-- Claim C3: `from_raw_full` makes no native reference-count call at
construction, so the wrapper uniquely owns the transferred reference and its
drop decrements exactly once; `from_raw_none` makes exactly one
`cairo_reference` call before wrapping, leaving the original owner's reference
intact, and its drop later releases exactly the reference the wrapper added. -/
theorem ownership_modes_refcount (p : Ptr) (h : p ≠ 0) (st : CairoState) :
    Context.from_raw_full p = some (⟨p, h⟩, []) ∧
    Context.from_raw_none p = some (⟨p, h⟩, [NCall.reference p]) ∧
    Context.dropTrace ⟨p, h⟩ = [NCall.destroy p] ∧
    countIncrements [NCall.reference p] p = 1 ∧
    countDecrements (Context.dropTrace ⟨p, h⟩) p = 1 ∧
    (applyTrace (Context.dropTrace ⟨p, h⟩) st).refcount p = st.refcount p - 1 ∧
    (∀ q : Ptr, q ≠ p →
      (applyTrace (Context.dropTrace ⟨p, h⟩) st).refcount q = st.refcount q) ∧
    (applyTrace [NCall.reference p] st).refcount p = st.refcount p + 1 ∧
    (∀ q : Ptr,
      (applyTrace ([NCall.reference p] ++ Context.dropTrace ⟨p, h⟩) st).refcount q =
        st.refcount q) := by
  refine ⟨by simp [Context.from_raw_full, h], by simp [Context.from_raw_none, h], rfl,
    by simp [countIncrements], by simp [countDecrements, Context.dropTrace],
    ?_, fun q hq => ?_, ?_, fun q => ?_⟩
  · simp [Context.dropTrace, applyTrace, NCall.applyTo]
  · simp [Context.dropTrace, applyTrace, NCall.applyTo, hq]
  · simp [applyTrace, NCall.applyTo]
  · rw [applyTrace_refcount]
    by_cases hq : q = p
    · subst hq
      simp [countIncrements_append, countDecrements_append, countIncrements,
        countDecrements, Context.dropTrace]
    · simp [countIncrements_append, countDecrements_append, countIncrements,
        countDecrements, Context.dropTrace, hq, Ne.symm hq]

/-- Witness for C3 at the concrete pointer `1` and a concrete native state. -/
theorem ownership_modes_refcount_witness :
    Context.from_raw_full 1 = some (⟨1, by decide⟩, []) ∧
    (applyTrace (Context.dropTrace ⟨1, by decide⟩) stEx).refcount 1 = stEx.refcount 1 - 1 ∧
    (applyTrace ([NCall.reference 1] ++ Context.dropTrace ⟨1, by decide⟩) stEx).refcount 1 =
      stEx.refcount 1 :=
  ⟨(ownership_modes_refcount 1 (by decide) stEx).1,
   (ownership_modes_refcount 1 (by decide) stEx).2.2.2.2.2.1,
   (ownership_modes_refcount 1 (by decide) stEx).2.2.2.2.2.2.2.2 1⟩

/-- Claim C4: `from_raw_borrow` performs no reference-count call at
construction, the borrowed wrapper exposes no destructor path, and the whole
borrow leaves every native reference count unchanged. -/
theorem borrow_no_refcount_traffic (p : Ptr) (h : p ≠ 0) (st : CairoState) :
    Context.from_raw_borrow p = some (⟨⟨p, h⟩⟩, []) ∧
    Borrowed.dropTrace ⟨⟨p, h⟩⟩ = [] ∧
    countIncrements ([] ++ Borrowed.dropTrace ⟨⟨p, h⟩⟩) p = 0 ∧
    countDecrements ([] ++ Borrowed.dropTrace ⟨⟨p, h⟩⟩) p = 0 ∧
    (∀ q : Ptr,
      (applyTrace ([] ++ Borrowed.dropTrace ⟨⟨p, h⟩⟩) st).refcount q = st.refcount q) := by
  exact ⟨by simp [Context.from_raw_borrow, h], rfl,
    by simp [countIncrements, Borrowed.dropTrace],
    by simp [countDecrements, Borrowed.dropTrace],
    fun q => rfl⟩

/-- Witness for C4 at the concrete pointer `1` and a concrete native state. -/
theorem borrow_no_refcount_traffic_witness :
    Context.from_raw_borrow 1 = some (⟨⟨1, by decide⟩⟩, []) ∧
    (applyTrace ([] ++ Borrowed.dropTrace ⟨⟨1, by decide⟩⟩) stEx).refcount 1 =
      stEx.refcount 1 :=
  ⟨(borrow_no_refcount_traffic 1 (by decide) stEx).1,
   (borrow_no_refcount_traffic 1 (by decide) stEx).2.2.2.2 1⟩

/-- Claim C5: `clone` makes exactly one `cairo_reference` call, yields an
independent handle on the same non-null native pointer, and each of the two
handles releases exactly its own reference on drop, the clone's drop alone
restoring the count the clone added. -/
theorem clone_one_increment (c : Context) (st : CairoState) :
    (Context.clone c).2 = [NCall.reference (Context.to_raw_none c)] ∧
    countIncrements (Context.clone c).2 (Context.to_raw_none c) = 1 ∧
    Context.to_raw_none (Context.clone c).1 = Context.to_raw_none c ∧
    Context.to_raw_none (Context.clone c).1 ≠ 0 ∧
    (applyTrace (Context.clone c).2 st).refcount (Context.to_raw_none c) =
      st.refcount (Context.to_raw_none c) + 1 ∧
    (∀ q : Ptr, q ≠ Context.to_raw_none c →
      (applyTrace (Context.clone c).2 st).refcount q = st.refcount q) ∧
    Context.dropTrace (Context.clone c).1 = [NCall.destroy (Context.to_raw_none c)] ∧
    Context.dropTrace c = [NCall.destroy (Context.to_raw_none c)] ∧
    (∀ q : Ptr,
      (applyTrace ((Context.clone c).2 ++ Context.dropTrace (Context.clone c).1) st).refcount q =
        st.refcount q) := by
  refine ⟨by simp [Context.clone_eq, Context.to_raw_none],
    by simp [Context.clone_eq, Context.to_raw_none, countIncrements],
    by simp [Context.clone_eq, Context.to_raw_none],
    by simp [Context.clone_eq, Context.to_raw_none, c.nonnull],
    ?_, fun q hq => ?_, by simp [Context.clone_eq, Context.dropTrace, Context.to_raw_none],
    rfl, fun q => ?_⟩
  · simp [Context.clone_eq, Context.to_raw_none, applyTrace, NCall.applyTo]
  · simp only [Context.to_raw_none] at hq
    simp [Context.clone_eq, Context.to_raw_none, applyTrace, NCall.applyTo, hq]
  · rw [applyTrace_refcount]
    by_cases hq : q = c.ptr
    · subst hq
      simp [Context.clone_eq, Context.dropTrace, countIncrements_append,
        countDecrements_append, countIncrements, countDecrements]
    · simp [Context.clone_eq, Context.dropTrace, countIncrements_append,
        countDecrements_append, countIncrements, countDecrements, hq, Ne.symm hq]

/-- Witness for C5 at a concrete handle and native state. -/
theorem clone_one_increment_witness :
    (Context.clone ctxOne).2 = [NCall.reference (Context.to_raw_none ctxOne)] ∧
    (applyTrace (Context.clone ctxOne).2 stEx).refcount (Context.to_raw_none ctxOne) =
      stEx.refcount (Context.to_raw_none ctxOne) + 1 ∧
    (applyTrace (Context.clone ctxOne).2 stEx).refcount 2 = stEx.refcount 2 ∧
    (applyTrace ((Context.clone ctxOne).2 ++ Context.dropTrace (Context.clone ctxOne).1)
      stEx).refcount 1 = stEx.refcount 1 :=
  ⟨(clone_one_increment ctxOne stEx).1,
   (clone_one_increment ctxOne stEx).2.2.2.2.1,
   (clone_one_increment ctxOne stEx).2.2.2.2.2.1 2 (by decide),
   (clone_one_increment ctxOne stEx).2.2.2.2.2.2.2.2 1⟩

/-- Claim C1: across a handle's whole lifetime — acquisition via
`from_raw_none`, any number of clones, and the drop of every handle — exactly
one `cairo_destroy` call occurs per `cairo_reference` call, and the native
reference count returns to its pre-acquisition value. -/
theorem lifecycle_refcount_balance
    (st : CairoState) (p : Ptr) (n : Nat) (c : Context) (t0 : List NCall)
    (h : Context.from_raw_none p = some (c, t0)) :
    countIncrements (lifecycleTrace c t0 n) p = n + 1 ∧
    countDecrements (lifecycleTrace c t0 n) p = n + 1 ∧
    (∀ q : Ptr, (applyTrace (lifecycleTrace c t0 n) st).refcount q = st.refcount q) ∧
    (applyTrace (lifecycleTrace c t0 n) st).status = st.status := by
  have hp : p ≠ 0 := by
    intro h0
    rw [h0] at h
    simp [Context.from_raw_none] at h
  rw [Context.from_raw_none, dif_neg hp] at h
  have h2 : ((⟨p, hp⟩, [NCall.reference p]) : Context × List NCall) = (c, t0) :=
    Option.some_inj.mp h
  have hc : (⟨p, hp⟩ : Context) = c := congrArg Prod.fst h2
  have ht : [NCall.reference p] = t0 := congrArg Prod.snd h2
  have hcp : c.ptr = p := by rw [← hc]
  have htrace : lifecycleTrace c t0 n =
      [NCall.reference p] ++ List.replicate n (NCall.reference p) ++
        ([NCall.destroy p] ++ List.replicate n (NCall.destroy p)) := by
    rw [lifecycleTrace, ← ht, Context.cloneMany_snd, hcp]
    show _ ++ _ ++ dropAll (c :: (Context.cloneMany c n).1) = _
    rw [dropAll, dropAll_cloneMany, Context.dropTrace, hcp]
  constructor
  · rw [htrace]
    simp only [countIncrements_append, countIncrements_singleton_ref,
      countIncrements_singleton_destroy, countIncrements_replicate_ref,
      countIncrements_replicate_destroy]
    simp [Nat.add_comm]
  constructor
  · rw [htrace]
    simp only [countDecrements_append, countDecrements_singleton_ref,
      countDecrements_singleton_destroy, countDecrements_replicate_ref,
      countDecrements_replicate_destroy]
    simp [Nat.add_comm]
  constructor
  · intro q
    rw [applyTrace_refcount, htrace]
    simp only [countIncrements_append, countDecrements_append,
      countIncrements_singleton_ref, countIncrements_singleton_destroy,
      countIncrements_replicate_ref, countIncrements_replicate_destroy,
      countDecrements_singleton_ref, countDecrements_singleton_destroy,
      countDecrements_replicate_ref, countDecrements_replicate_destroy]
    by_cases hq : q = p
    · simp [hq]
    · simp [hq]
  · exact applyTrace_status _ _

/-- Witness for C1: acquiring pointer `1`, cloning twice and dropping all three
handles makes three increments, three decrements, and restores the count. -/
theorem lifecycle_refcount_balance_witness :
    countIncrements (lifecycleTrace ctxOne [NCall.reference 1] 2) 1 = 3 ∧
    countDecrements (lifecycleTrace ctxOne [NCall.reference 1] 2) 1 = 3 ∧
    (applyTrace (lifecycleTrace ctxOne [NCall.reference 1] 2) stEx).refcount 1 =
      stEx.refcount 1 :=
  ⟨(lifecycle_refcount_balance stEx 1 2 ctxOne [NCall.reference 1] rfl).1,
   (lifecycle_refcount_balance stEx 1 2 ctxOne [NCall.reference 1] rfl).2.1,
   (lifecycle_refcount_balance stEx 1 2 ctxOne [NCall.reference 1] rfl).2.2.1 1⟩

theorem Error.eq_mk (e : Error) (x : Int) : e = ⟨x⟩ ↔ e.code = x := by
  cases e
  simp

/-- Claim C6: `Context::status` returns `Ok(())` exactly when the native code
queried via `cairo_status` is the success code and the translated typed error
otherwise; the `Result`-returning operations `new`, `save`, `restore`, `fill`
and `in_clip` first perform the native call and then return their output
exactly when this post-call status check succeeds, never silently succeeding
on a flagged error. -/
theorem result_ops_check_status
    (c : Context) (st : CairoState)
    (envSave envRestore envFill : Ptr → CairoState → CairoState)
    (envInClip : Ptr → F64 → F64 → CairoState → Int × CairoState)
    (envCreate : Ptr → CairoState → Ptr × CairoState)
    (target : Ptr) (x y : F64) :
    (Context.statusResult c st = Except.ok () ↔
      cairo_status c.ptr st = STATUS_SUCCESS) ∧
    (∀ e : Error, Context.statusResult c st = Except.error e ↔
      (cairo_status c.ptr st ≠ STATUS_SUCCESS ∧ e.code = cairo_status c.ptr st)) ∧
    ((Context.save envSave c st).1 = Except.ok () ↔
      cairo_status c.ptr (envSave c.ptr st) = STATUS_SUCCESS) ∧
    (∀ e : Error, (Context.save envSave c st).1 = Except.error e ↔
      (cairo_status c.ptr (envSave c.ptr st) ≠ STATUS_SUCCESS ∧
        e.code = cairo_status c.ptr (envSave c.ptr st))) ∧
    (Context.save envSave c st).2 = envSave c.ptr st ∧
    ((Context.restore envRestore c st).1 = Except.ok () ↔
      cairo_status c.ptr (envRestore c.ptr st) = STATUS_SUCCESS) ∧
    ((Context.fill envFill c st).1 = Except.ok () ↔
      cairo_status c.ptr (envFill c.ptr st) = STATUS_SUCCESS) ∧
    (∀ b : Bool, (Context.in_clip envInClip c x y st).1 = Except.ok b ↔
      (cairo_status c.ptr (envInClip c.ptr x y st).2 = STATUS_SUCCESS ∧
        b = ((envInClip c.ptr x y st).1 != 0))) ∧
    (∀ hp : (envCreate target st).1 ≠ 0,
      (Context.new envCreate target st =
          some (Except.ok ⟨(envCreate target st).1, hp⟩, (envCreate target st).2) ↔
        cairo_status (envCreate target st).1 (envCreate target st).2 = STATUS_SUCCESS)) ∧
    ((envCreate target st).1 = 0 → Context.new envCreate target st = none) := by
  refine ⟨?_, fun e => ?_, ?_, fun e => ?_, rfl, ?_, ?_, fun b => ?_, fun hp => ?_, fun h0 => ?_⟩
  · simp [Context.statusResult, status_to_result]
  · by_cases h : cairo_status c.ptr st = STATUS_SUCCESS <;>
      simp [Context.statusResult, status_to_result, h, eq_comm, Error.eq_mk]
  · simp [Context.save, Context.statusResult, status_to_result]
  · by_cases h : cairo_status c.ptr (envSave c.ptr st) = STATUS_SUCCESS <;>
      simp [Context.save, Context.statusResult, status_to_result, h, eq_comm, Error.eq_mk]
  · simp [Context.restore, Context.statusResult, status_to_result]
  · simp [Context.fill, Context.statusResult, status_to_result]
  · by_cases h : cairo_status c.ptr (envInClip c.ptr x y st).2 = STATUS_SUCCESS <;>
      simp [Context.in_clip, Context.statusResult, status_to_result, h, Except.map, eq_comm]
  · by_cases h : cairo_status (envCreate target st).1 (envCreate target st).2 = STATUS_SUCCESS <;>
      simp [Context.new, Context.from_raw_full, hp, Context.statusResult,
        status_to_result, h, Except.map]
  · simp [Context.new, Context.from_raw_full, h0]

/-- Witness for C6 at concrete environments: an identity native call on a
clean state yields `Ok`, and on a state carrying status 11 yields the
translated error. -/
theorem result_ops_check_status_witness :
    (Context.save (fun _ s => s) ctxOne stEx).1 = Except.ok () ∧
    (Context.save (fun _ s => s) ctxOne stBad).1 = Except.error ⟨11⟩ ∧
    Context.new (fun _ s => (1, s)) 7 stEx = some (Except.ok ⟨1, by decide⟩, stEx) ∧
    Context.new (fun _ s => (0, s)) 7 stEx = none := by
  have h1 := result_ops_check_status ctxOne stEx (fun _ s => s) (fun _ s => s) (fun _ s => s)
    (fun _ _ _ s => (1, s)) (fun _ s => (1, s)) 7 0 0
  have h2 := result_ops_check_status ctxOne stBad (fun _ s => s) (fun _ s => s) (fun _ s => s)
    (fun _ _ _ s => (1, s)) (fun _ s => (0, s)) 7 0 0
  exact ⟨h1.2.2.1.mpr rfl, (h2.2.2.2.1 ⟨11⟩).mpr ⟨by decide, rfl⟩,
    (h1.2.2.2.2.2.2.2.2.1 (by decide)).mpr rfl, h2.2.2.2.2.2.2.2.2.2 rfl⟩

-- C7: the claim that every state-changing operation surfaces a typed error is
-- refuted by `set_operator` and `move_to` (no status query at all) and by
-- `set_antialias` (which panics instead of returning the error).

/-- A native setter call whose effect leaves the object with the non-success
status code 11. -/
def envSetterBad : Ptr → Int → CairoState → CairoState :=
  fun _ _ _ => stBad

/-- Counterexample to claim C7 as stated: with a native call that flags status
11, `set_operator` completes and returns the new state — it performs no status
translation and surfaces no typed error (its result type has no error
component), even though a status query would report the error — and
`set_antialias` panics (`none`) rather than returning the typed error to the
caller. -/
theorem setter_error_translation_counterexample :
    Context.set_operator envSetterBad ctxOne 0 stEx = stBad ∧
    cairo_status (Context.to_raw_none ctxOne)
      (Context.set_operator envSetterBad ctxOne 0 stEx) = 11 ∧
    Context.statusResult ctxOne (Context.set_operator envSetterBad ctxOne 0 stEx) =
      Except.error ⟨11⟩ ∧
    Context.set_antialias envSetterBad ctxOne 0 stEx = none := by
  refine ⟨rfl, rfl, ?_, ?_⟩
  · simp [Context.set_operator, envSetterBad, Context.statusResult, status_to_result,
      cairo_status, stBad, STATUS_SUCCESS]
  · simp [Context.set_antialias, envSetterBad, Context.statusResult, status_to_result,
      cairo_status, stBad, STATUS_SUCCESS]

/-- Claim C7 as amended: `set_antialias` does query the native status after
the call, but a non-success code makes it panic (`expect`) instead of
returning a typed error, and success is silent; `set_operator` and `move_to`
perform no status query at all and return unconditionally, whatever status the
native call leaves behind. -/
theorem setter_status_behaviour
    (c : Context) (st : CairoState) (a : Int) (x y : F64)
    (envA envO : Ptr → Int → CairoState → CairoState)
    (envM : Ptr → F64 → F64 → CairoState → CairoState) :
    (Context.set_antialias envA c a st = none ↔
      cairo_status c.ptr (envA c.ptr a st) ≠ STATUS_SUCCESS) ∧
    (Context.set_antialias envA c a st = some (envA c.ptr a st) ↔
      cairo_status c.ptr (envA c.ptr a st) = STATUS_SUCCESS) ∧
    Context.set_operator envO c a st = envO c.ptr a st ∧
    Context.move_to envM c x y st = envM c.ptr x y st := by
  refine ⟨?_, ?_, rfl, rfl⟩
  · by_cases h : cairo_status c.ptr (envA c.ptr a st) = STATUS_SUCCESS <;>
      simp [Context.set_antialias, Context.statusResult, status_to_result, h]
  · by_cases h : cairo_status c.ptr (envA c.ptr a st) = STATUS_SUCCESS <;>
      simp [Context.set_antialias, Context.statusResult, status_to_result, h]

/-- Claim C8: each generated accessor is a one-to-one forwarder — one call of
the accessor makes exactly one call of its corresponding native entry point
with the marshalled arguments and returns that entry point's result translated
into the safe type, with no other native call. -/
theorem accessors_forward_once
    (self : MenuItem) (label : Option String)
    (selfP : Permission) (envAllowed : Ptr → Int)
    (selfF : FontFace) (envFace : Ptr → Ptr) (strMem : Ptr → String) :
    MenuItem.set_label self label =
      ((), [GCall.g_menu_item_set_label self.ptr label]) ∧
    (MenuItem.set_label self label).2.length = 1 ∧
    Permission.get_allowed envAllowed selfP =
      (from_glib_bool (envAllowed selfP.ptr), [GCall.g_permission_get_allowed selfP.ptr]) ∧
    (Permission.get_allowed envAllowed selfP).2.length = 1 ∧
    ((Permission.get_allowed envAllowed selfP).1 = true ↔ envAllowed selfP.ptr ≠ 0) ∧
    FontFace.get_face_name envFace strMem selfF =
      (from_glib_none_str strMem (envFace selfF.ptr),
        [GCall.pango_font_face_get_face_name selfF.ptr]) ∧
    (FontFace.get_face_name envFace strMem selfF).2.length = 1 ∧
    (envFace selfF.ptr = 0 → (FontFace.get_face_name envFace strMem selfF).1 = none) ∧
    (∀ hne : envFace selfF.ptr ≠ 0,
      (FontFace.get_face_name envFace strMem selfF).1 =
        some (strMem (envFace selfF.ptr))) := by
  refine ⟨rfl, rfl, rfl, rfl, ?_, rfl, rfl, fun h0 => ?_, fun hne => ?_⟩
  · simp [Permission.get_allowed, from_glib_bool]
  · simp [FontFace.get_face_name, from_glib_none_str, h0]
  · simp [FontFace.get_face_name, from_glib_none_str, hne]

/-- Witness for C8 at concrete objects and native results. -/
theorem accessors_forward_once_witness :
    MenuItem.set_label ⟨3⟩ (some "open") =
      ((), [GCall.g_menu_item_set_label 3 (some "open")]) ∧
    (Permission.get_allowed (fun _ => 1) ⟨4⟩).1 = true ∧
    (FontFace.get_face_name (fun _ => 0) (fun _ => "serif") ⟨5⟩).1 = none ∧
    (FontFace.get_face_name (fun _ => 9) (fun _ => "serif") ⟨5⟩).1 = some "serif" := by
  have h1 := accessors_forward_once ⟨3⟩ (some "open") ⟨4⟩ (fun _ => 1) ⟨5⟩ (fun _ => 0)
    (fun _ => "serif")
  have h2 := accessors_forward_once ⟨3⟩ (some "open") ⟨4⟩ (fun _ => 1) ⟨5⟩ (fun _ => 9)
    (fun _ => "serif")
  exact ⟨h1.1, h1.2.2.2.2.1.mpr (by decide), h1.2.2.2.2.2.2.2.1 rfl,
    h2.2.2.2.2.2.2.2.2 (by decide)⟩

/-- Claim C9: dereferencing a `RectangleList` is total and safe — a null
rectangle pointer or a zero count yields the empty slice, and otherwise the
slice holds exactly `num_rectangles` rectangles starting at the rectangle
pointer (counts are native `c_int` values, hence non-negative and below
`2^31`). -/
theorem rectangle_list_deref_total
    (listMem : Ptr → cairo_rectangle_list_t) (mem : Ptr → Rectangle)
    (rl : RectangleList) :
    ((listMem rl.ptr).rectangles = 0 ∨ (listMem rl.ptr).num_rectangles = 0 →
      RectangleList.deref listMem mem rl = []) ∧
    (∀ hp : (listMem rl.ptr).rectangles ≠ 0,
     ∀ hpos : 0 < (listMem rl.ptr).num_rectangles,
     ∀ hbound : (listMem rl.ptr).num_rectangles < 2 ^ 31,
      (RectangleList.deref listMem mem rl).length =
        (listMem rl.ptr).num_rectangles.toNat ∧
      (∀ i : Nat, i < (listMem rl.ptr).num_rectangles.toNat →
        (RectangleList.deref listMem mem rl)[i]? =
          some (mem ((listMem rl.ptr).rectangles + i)))) := by
  constructor
  · intro h0
    simp [RectangleList.deref, h0]
  · intro hp hpos hbound
    have hne : (listMem rl.ptr).num_rectangles ≠ 0 := ne_of_gt hpos
    have hcast : usize_of_c_int (listMem rl.ptr).num_rectangles =
        (listMem rl.ptr).num_rectangles.toNat := by
      rw [usize_of_c_int, Int.emod_eq_of_lt (le_of_lt hpos) (by omega)]
    constructor
    · simp [RectangleList.deref, hp, hne, slice_from_raw_parts, hcast]
    · intro i hi
      simp [RectangleList.deref, hp, hne, slice_from_raw_parts, hcast,
        List.getElem?_map, List.getElem?_range, hi]

/-- Witness for C9 at a concrete two-rectangle native list. -/
theorem rectangle_list_deref_total_witness :
    (RectangleList.deref (fun _ => ⟨0, 5, 2⟩) (fun p => ⟨p, 0, 0, 0⟩) ⟨4⟩).length = 2 ∧
    (RectangleList.deref (fun _ => ⟨0, 5, 2⟩) (fun p => ⟨p, 0, 0, 0⟩) ⟨4⟩)[1]? =
      some ⟨6, 0, 0, 0⟩ ∧
    RectangleList.deref (fun _ => ⟨0, 5, 0⟩) (fun p => ⟨p, 0, 0, 0⟩) ⟨4⟩ = [] := by
  have h := rectangle_list_deref_total (fun _ => ⟨0, 5, 2⟩) (fun p => ⟨p, 0, 0, 0⟩) ⟨4⟩
  have h0 := rectangle_list_deref_total (fun _ => ⟨0, 5, 0⟩) (fun p => ⟨p, 0, 0, 0⟩) ⟨4⟩
  exact ⟨(h.2 (by decide) (by decide) (by decide)).1,
    (h.2 (by decide) (by decide) (by decide)).2 1 (by decide),
    h0.1 (Or.inr rfl)⟩

/-- Claim C10: `copy_clip_rectangle_list` returns `Ok` wrapping the native
list exactly when the list's embedded status field is the success code; a
non-success status yields the translated typed error with no `RectangleList`
constructed, the function itself makes no `cairo_rectangle_list_destroy`
call on either path, and only a constructed wrapper's drop ever does. -/
theorem copy_clip_rectangle_list_status_gate
    (env : Ptr → CairoState → Ptr × CairoState)
    (listMem : Ptr → cairo_rectangle_list_t)
    (c : Context) (st : CairoState) :
    ((listMem (env c.ptr st).1).status = STATUS_SUCCESS →
      Context.copy_clip_rectangle_list env listMem c st =
        (Except.ok ⟨(env c.ptr st).1⟩, (env c.ptr st).2, [])) ∧
    ((listMem (env c.ptr st).1).status ≠ STATUS_SUCCESS →
      Context.copy_clip_rectangle_list env listMem c st =
        (Except.error ⟨(listMem (env c.ptr st).1).status⟩, (env c.ptr st).2, [])) ∧
    (Context.copy_clip_rectangle_list env listMem c st).2.2 = [] ∧
    RectangleList.dropTrace ⟨(env c.ptr st).1⟩ =
      [NCall.rectangleListDestroy (env c.ptr st).1] := by
  refine ⟨fun h => ?_, fun h => ?_, ?_, rfl⟩
  · simp [Context.copy_clip_rectangle_list, status_to_result, h]
  · simp [Context.copy_clip_rectangle_list, status_to_result, h]
  · by_cases h : (listMem (env c.ptr st).1).status = STATUS_SUCCESS <;>
      simp [Context.copy_clip_rectangle_list, status_to_result, h]

/-- Witness for C10 at concrete native lists: a clean status wraps, status 11
errors, with no destroy call either way. -/
theorem copy_clip_rectangle_list_status_gate_witness :
    Context.copy_clip_rectangle_list (fun _ s => (6, s)) (fun _ => ⟨0, 5, 1⟩) ctxOne stEx =
      (Except.ok ⟨6⟩, stEx, []) ∧
    Context.copy_clip_rectangle_list (fun _ s => (6, s)) (fun _ => ⟨11, 5, 1⟩) ctxOne stEx =
      (Except.error ⟨11⟩, stEx, []) :=
  ⟨(copy_clip_rectangle_list_status_gate (fun _ s => (6, s)) (fun _ => ⟨0, 5, 1⟩)
      ctxOne stEx).1 rfl,
   (copy_clip_rectangle_list_status_gate (fun _ s => (6, s)) (fun _ => ⟨11, 5, 1⟩)
      ctxOne stEx).2.1 (by decide)⟩
